import Mathlib

/-!
Verification development for the opexr-tools asynchronous comparison core.

Shallow embedding of:
  * the amount normalizer (`backend/compare.py` `DataComparator.extract_amount`,
    `backend/compare_dask.py` `DaskDataComparator.normalize_amount_column`),
  * the aggregation pipeline (`backend/compare_dask_duckdb.py`
    `DaskDuckDBComparator.compare_datasets_async`, lines 84-143),
  * the job state machine (`backend/job_manager.py` `JobManager`),
  * the result query layer (`backend/compare_dask_duckdb.py`
    `DaskDuckDBComparator.query_results`),
  * the start endpoint (`backend/api_dask_async.py` `start_comparison`).

Monetary amounts are modelled as rationals (the Python code uses IEEE doubles;
every concrete value exercised here is exactly representable, and the
comparisons `> 0`, `== 0` used by the classification logic agree between the
two carriers on such values).  Timestamps are modelled as naturals passed
explicitly where the Python code calls `datetime.now()`.
-/

attribute [local semireducible] Rat.add Rat.sub Rat.mul Rat.inv Rat.ofScientific

set_option maxRecDepth 8000

namespace OpexR

/-- Python `str.strip()`: drop whitespace from both ends. -/
def pyStrip (cs : List Char) : List Char :=
  ((cs.dropWhile Char.isWhitespace).reverse.dropWhile Char.isWhitespace).reverse

/-- `str.strip()` on a `String`. -/
def pyStripStr (s : String) : String := String.mk (pyStrip s.toList)

/-- Consume a maximal run of decimal digits, returning (digits, rest). -/
def takeDigits : List Char → List Char × List Char
  | [] => ([], [])
  | c :: cs =>
    if c.isDigit then
      let r := takeDigits cs
      (c :: r.1, r.2)
    else ([], c :: cs)

/-- Value of a digit string (most significant first). -/
def digitsToNat (ds : List Char) : Nat :=
  ds.foldl (fun n c => 10 * n + (c.toNat - 48)) 0

/-- Parse the optional exponent tail of a Python float literal: either the end
of input (exponent 0) or `e`/`E`, optional sign, one or more digits, then the
end of input.  Anything else is a parse failure. -/
def parseExpTail (cs : List Char) : Option Int :=
  match cs with
  | [] => some 0
  | c :: r =>
    if c = 'e' ∨ c = 'E' then
      let sr : Int × List Char :=
        match r with
        | '+' :: r2 => (1, r2)
        | '-' :: r2 => (-1, r2)
        | r2 => (1, r2)
      let dr := takeDigits sr.2
      if dr.1.isEmpty then none
      else if dr.2.isEmpty then some (sr.1 * (digitsToNat dr.1 : Int))
      else none
    else none

/-- Model of Python `float(s)` (equivalently `pandas.to_numeric` with
`errors="coerce"`) on finite decimal literals: surrounding whitespace is
stripped, then an optional sign, an integer part and/or a fractional part
(at least one digit in total), and an optional exponent are accepted.
`inf`/`nan` literals and digit-group underscores are not modelled; no input
exercised by the claims uses them.  Returns `none` where Python raises
`ValueError` (respectively produces `NaN` under `coerce`). -/
def pyFloat? (s : String) : Option ℚ :=
  let cs := pyStrip s.toList
  let sc : ℚ × List Char :=
    match cs with
    | '+' :: r => (1, r)
    | '-' :: r => (-1, r)
    | r => (1, r)
  let ir := takeDigits sc.2
  let fr : Option (List Char) × List Char :=
    match ir.2 with
    | '.' :: r =>
      let d := takeDigits r
      (some d.1, d.2)
    | r => (none, r)
  if ir.1.isEmpty ∧ (fr.1.getD []).isEmpty then none
  else
    match parseExpTail fr.2 with
    | none => none
    | some e =>
      let frac := fr.1.getD []
      some (sc.1 * ((digitsToNat ir.1 : ℚ) + (digitsToNat frac : ℚ) / (10 : ℚ) ^ frac.length)
        * (10 : ℚ) ^ e)

/-- The character-level cleanup shared by `DataComparator.extract_amount` and
`DaskDataComparator.normalize_amount_column`: remove `,`, turn `(` into `-`,
remove `)`.  The Python code performs three sequential `replace` calls; since
the replacements are single-character and produce no character consumed by a
later replacement, one pass is equivalent. -/
def clean_amount (s : String) : String :=
  String.mk (s.toList.filterMap fun c =>
    if c = ',' then none
    else if c = '(' then some '-'
    else if c = ')' then none
    else some c)

/-- `DataComparator.extract_amount` on a string amount (also the per-value
semantics of `normalize_amount_column`): clean the string, parse it as a
float, and fall back to `0.0` on parse failure. -/
def extract_amount (s : String) : ℚ :=
  (pyFloat? (clean_amount s)).getD 0

/-- First-match association-list lookup, modelling a Python dict read.  The
dicts built by the pipeline (`emp_map`, `wt_map`, the job registry) are keyed
uniquely, so first-match and last-write-wins agree. -/
def lookupKey {α : Type} (m : List (String × α)) (k : String) : Option α :=
  List.lookup k m

/-- One input record, holding the three columns the pipeline reads
(`Pers.No.`, `WT`, `Amount`); the amount is kept in its raw string form. -/
structure SrcRecord where
  persNo : String
  wt : String
  amount : String
deriving DecidableEq, Repr

/-- `determine_status` from `compare_datasets_async` (identical in
`compare_datasets_aggregated`). -/
def determine_status (ecc_amount ecp_amount : ℚ) : String :=
  if ecc_amount > 0 ∧ ecp_amount > 0 then "Matched"
  else if ecc_amount > 0 then "ECC Only"
  else "ECP Only"

/-- One row of the `comparison_results` table. -/
structure ResultRow where
  ecp_id : String
  wage_type : String
  wage_category : String
  ecc_amount : ℚ
  ecp_amount : ℚ
  difference : ℚ
  status : String
deriving DecidableEq, Repr

/-- The ECC (source) side before grouping: strip the identifier and code
columns, map the identifier through `emp_map`, drop rows whose identifier is
unmapped (`dropna(subset=["mapped_ecp"])`), and normalize the amount. -/
def keyedSrc (emp_map : List (String × String)) (ecc : List SrcRecord) :
    List ((String × String) × ℚ) :=
  ecc.filterMap fun r =>
    match lookupKey emp_map (pyStripStr r.persNo) with
    | some m => some ((m, pyStripStr r.wt), extract_amount r.amount)
    | none => none

/-- The ECP (target) side before grouping: identifiers are used directly. -/
def keyedTgt (ecp : List SrcRecord) : List ((String × String) × ℚ) :=
  ecp.map fun r => ((pyStripStr r.persNo, pyStripStr r.wt), extract_amount r.amount)

/-- Grouped sum of the amounts carrying a given (identifier, code) key. -/
def sumAmounts (l : List ((String × String) × ℚ)) (k : String × String) : ℚ :=
  (l.filter (fun x => x.1 == k)).foldl (fun a x => a + x.2) 0

/-- The distinct keys occurring in a keyed list (the groups of `groupby`). -/
def keysOf (l : List ((String × String) × ℚ)) : List (String × String) :=
  (l.map (fun x => x.1)).dedup

/-- The aggregation core of `compare_datasets_async` (lines 84-143): group
each side by (identifier, code) and sum, outer-join on the key with missing
sides defaulting to `0.0` (`fillna(0)`), compute `difference`, attach the
wage category (default `"Uncategorized"`), and classify with
`determine_status`.  Row order is irrelevant downstream (the result store
sorts on query). -/
def compare_datasets_rows (emp_map wt_map : List (String × String))
    (ecc ecp : List SrcRecord) : List ResultRow :=
  let src := keyedSrc emp_map ecc
  let tgt := keyedTgt ecp
  let ks := (keysOf src ++ keysOf tgt).dedup
  ks.map fun k =>
    let sa := sumAmounts src k
    let ta := sumAmounts tgt k
    { ecp_id := k.1
      wage_type := k.2
      wage_category := (lookupKey wt_map k.2).getD "Uncategorized"
      ecc_amount := sa
      ecp_amount := ta
      difference := ta - sa
      status := determine_status sa ta }

/-- `JobStatus` from `backend/job_manager.py`. -/
inductive JobStatus where
  | pending
  | loading_data
  | aggregating
  | mapping
  | merging
  | storing
  | completed
  | failed
  | cancelled
deriving DecidableEq, Repr

/-- One job record, with the fields written by `JobManager.create_job`.
Timestamps are naturals (`none` models Python `None`); metadata is an
association list modelling the Python dict. -/
structure Job where
  job_id : String
  job_type : String
  status : JobStatus
  ecc_dataset : String
  ecp_dataset : String
  created_at : Nat
  updated_at : Nat
  started_at : Option Nat
  completed_at : Option Nat
  progress : ℚ
  progress_message : String
  total_rows : Nat
  processed_rows : Nat
  result_path : Option String
  error : Option String
  metadata : List (String × String)
deriving DecidableEq, Repr

/-- The initial job record built by `JobManager.create_job`; the generated
uuid and the current time are passed in explicitly. -/
def create_job (jid ecc ecp : String) (now : Nat) : Job :=
  { job_id := jid
    job_type := "dask_comparison"
    status := .pending
    ecc_dataset := ecc
    ecp_dataset := ecp
    created_at := now
    updated_at := now
    started_at := none
    completed_at := none
    progress := 0
    progress_message := "Job created, waiting to start..."
    total_rows := 0
    processed_rows := 0
    result_path := none
    error := none
    metadata := [] }

/-- The optional keyword arguments of `JobManager.update_job`; `none` models
a Python `None` default (argument not supplied). -/
structure UpdateArgs where
  status : Option JobStatus := none
  progress : Option ℚ := none
  progress_message : Option String := none
  processed_rows : Option Nat := none
  total_rows : Option Nat := none
  result_path : Option String := none
  error : Option String := none
  metadata : Option (List (String × String)) := none
deriving DecidableEq, Repr

/-- `min(100.0, max(0.0, progress))` from `update_job`. -/
def clampProgress (p : ℚ) : ℚ := min 100 (max 0 p)

/-- Python `dict.update`: existing keys are overwritten in place, new keys
are appended in order. -/
def metaUpdate (old new : List (String × String)) : List (String × String) :=
  (old.map fun kv =>
    match lookupKey new kv.1 with
    | some v => (kv.1, v)
    | none => kv)
  ++ new.filter fun kv => (lookupKey old kv.1).isNone

/-- The `if status is not None:` block of `update_job` (lines 145-150): set
the status; record `started_at` on a first transition into LOADING_DATA;
record `completed_at` on every transition into COMPLETED or FAILED. -/
def applyStatus (now : Nat) (os : Option JobStatus) (j : Job) : Job :=
  match os with
  | none => j
  | some s =>
    let js := { j with status := s }
    if s = JobStatus.loading_data ∧ js.started_at = none then { js with started_at := some now }
    else if s = JobStatus.completed ∨ s = JobStatus.failed then { js with completed_at := some now }
    else js

/-- The `if progress is not None:` block (lines 152-153). -/
def applyProgress (op : Option ℚ) (j : Job) : Job :=
  match op with
  | none => j
  | some p => { j with progress := clampProgress p }

/-- The `if progress_message is not None:` block (lines 155-156). -/
def applyMessage (om : Option String) (j : Job) : Job :=
  match om with
  | none => j
  | some m => { j with progress_message := m }

/-- The `if processed_rows is not None:` block (lines 158-159). -/
def applyProcessedRows (onr : Option Nat) (j : Job) : Job :=
  match onr with
  | none => j
  | some n => { j with processed_rows := n }

/-- The `if total_rows is not None:` block (lines 161-162). -/
def applyTotalRows (onr : Option Nat) (j : Job) : Job :=
  match onr with
  | none => j
  | some n => { j with total_rows := n }

/-- The `if result_path is not None:` block (lines 164-165). -/
def applyResultPath (orp : Option String) (j : Job) : Job :=
  match orp with
  | none => j
  | some p => { j with result_path := some p }

/-- The `if error is not None:` block (lines 167-169): record the error and
force the status to FAILED. -/
def applyError (oe : Option String) (j : Job) : Job :=
  match oe with
  | none => j
  | some e => { j with error := some e, status := .failed }

/-- The `if metadata is not None:` block (lines 171-172): `dict.update`. -/
def applyMetadata (om : Option (List (String × String))) (j : Job) : Job :=
  match om with
  | none => j
  | some m => { j with metadata := metaUpdate j.metadata m }

/-- `JobManager.update_job` on an existing job record: the sequential field
mutations of lines 144-174 in program order, finishing with the
unconditional `updated_at` refresh; the shared call time `now` stands for
the `datetime.now()` calls. -/
def update_job (j : Job) (a : UpdateArgs) (now : Nat) : Job :=
  { applyMetadata a.metadata
      (applyError a.error
        (applyResultPath a.result_path
          (applyTotalRows a.total_rows
            (applyProcessedRows a.processed_rows
              (applyMessage a.progress_message
                (applyProgress a.progress
                  (applyStatus now a.status j))))))) with
    updated_at := now }

/-- A sortable column of the `comparison_results` table; the column names
accepted by `_build_order_clause` via the `sort_by` string. -/
inductive SortKey where
  | ecp_id
  | wage_type
  | wage_category
  | ecc_amount
  | ecp_amount
  | difference
  | status
deriving DecidableEq, Repr

/-- Three-way comparison on strings (lexicographic, as DuckDB orders
`VARCHAR` columns). -/
def cmpStr (a b : String) : Ordering :=
  if a < b then .lt else if b < a then .gt else .eq

/-- Three-way comparison on amounts. -/
def cmpQ (a b : ℚ) : Ordering :=
  if a < b then .lt else if b < a then .gt else .eq

/-- Compare two rows on one column. -/
def colCmp (k : SortKey) (r1 r2 : ResultRow) : Ordering :=
  match k with
  | .ecp_id => cmpStr r1.ecp_id r2.ecp_id
  | .wage_type => cmpStr r1.wage_type r2.wage_type
  | .wage_category => cmpStr r1.wage_category r2.wage_category
  | .ecc_amount => cmpQ r1.ecc_amount r2.ecc_amount
  | .ecp_amount => cmpQ r1.ecp_amount r2.ecp_amount
  | .difference => cmpQ r1.difference r2.difference
  | .status => cmpStr r1.status r2.status

/-- Lexicographic row comparison for an `ORDER BY` list: each entry is a
column and a descending flag; ties fall through to the next entry. -/
def rowCmp : List (SortKey × Bool) → ResultRow → ResultRow → Ordering
  | [], _, _ => .eq
  | (k, desc) :: rest, r1, r2 =>
    let c0 := colCmp k r1 r2
    let c := if desc then c0.swap else c0
    match c with
    | .eq => rowCmp rest r1 r2
    | o => o

/-- The "not greater" relation induced by a sort specification. -/
def rowLE (spec : List (SortKey × Bool)) (r1 r2 : ResultRow) : Prop :=
  rowCmp spec r1 r2 ≠ Ordering.gt

instance (spec : List (SortKey × Bool)) : DecidableRel (rowLE spec) := fun _ _ =>
  instDecidableNot

/-- The deterministic total order the result store applies for a fixed
`ORDER BY` clause: sorting the filtered rows by the lexicographic comparator
(the same immutable table and clause yield the same order on every query). -/
def sortRows (spec : List (SortKey × Bool)) (rows : List ResultRow) : List ResultRow :=
  rows.insertionSort (rowLE spec)

/-- The `WHERE status = ...` filter of `query_results` (`none` = no filter). -/
def filterRows (filt : Option String) (rows : List ResultRow) : List ResultRow :=
  match filt with
  | none => rows
  | some s => rows.filter fun r => r.status == s

/-- `(total_rows + page_size - 1) // page_size` from `query_results`. -/
def ceilDiv (a b : Nat) : Nat := (a + b - 1) / b

/-- The three return shapes of `DaskDuckDBComparator.query_results`:
`notFound` models the `ValueError` raises; `inProgress` models the early
return for a job that is not yet completed (no `has_next`/`has_prev` keys in
that branch, and `total_rows`/`total_pages` are literal zeros); `completed`
models the full result page.  The `summary` dict carried alongside is not
modelled (no claim mentions it). -/
inductive QueryOutcome where
  | notFound (msg : String)
  | inProgress (status : JobStatus) (progress : ℚ) (message : String)
      (results : List ResultRow) (page pageSize totalRows totalPages : Nat)
  | completed (results : List ResultRow)
      (page pageSize totalRows totalPages : Nat) (hasNext hasPrev : Bool)
deriving DecidableEq, Repr

/-- `DaskDuckDBComparator.query_results`: look the job up (missing job
raises), return the in-progress shape unless the job is COMPLETED, then read
the result table (missing table raises), filter, count, sort, and slice the
requested 1-indexed page with `LIMIT page_size OFFSET (page-1)*page_size`.
The persisted result tables are modelled as `stores`, keyed by the job's
`result_path`. -/
def query_results (jobs : List (String × Job)) (stores : List (String × List ResultRow))
    (jid : String) (page pageSize : Nat) (spec : List (SortKey × Bool))
    (filt : Option String) : QueryOutcome :=
  match lookupKey jobs jid with
  | none => .notFound ("Job " ++ jid ++ " not found")
  | some j =>
    if j.status ≠ JobStatus.completed then
      .inProgress j.status j.progress j.progress_message [] page pageSize 0 0
    else
      match j.result_path with
      | none => .notFound ("Result database not found for job " ++ jid)
      | some p =>
        match lookupKey stores p with
        | none => .notFound ("Result database not found for job " ++ jid)
        | some rows =>
          let matching := filterRows filt rows
          let totalRows := matching.length
          let totalPages := ceilDiv totalRows pageSize
          let offset := (page - 1) * pageSize
          .completed (((sortRows spec matching).drop offset).take pageSize)
            page pageSize totalRows totalPages
            (decide (page < totalPages)) (decide (page > 1))

/-- The sequence of `update_progress` calls issued by
`compare_datasets_async` on the success path, in program order (lines
67-196).  `update_progress` always passes the message and progress and
optionally a status; the dynamic row count interpolated into the storing
message is irrelevant to the job fields and elided. -/
def pipelineUpdates : List UpdateArgs :=
  [ { status := some .loading_data, progress := some 5,
      progress_message := some "Loading mappings..." },
    { status := some .loading_data, progress := some 10,
      progress_message := some "Loading datasets..." },
    { progress := some 15, progress_message := some "Parsing amounts..." },
    { status := some .mapping, progress := some 25,
      progress_message := some "Mapping employee IDs..." },
    { status := some .aggregating, progress := some 35,
      progress_message := some "Aggregating ECC data..." },
    { status := some .aggregating, progress := some 50,
      progress_message := some "Aggregating ECP data..." },
    { status := some .merging, progress := some 65,
      progress_message := some "Merging datasets..." },
    { status := some .storing, progress := some 75,
      progress_message := some "Computing results..." },
    { status := some .storing, progress := some 85,
      progress_message := some "Storing rows to DuckDB..." },
    { status := some .completed, progress := some 100,
      progress_message := some "Comparison complete!" } ]

/-- The successive job states of one successful run: the freshly created job
followed by the state after each `update_progress` call.  Update times do
not influence the progress field and are fixed at `0`. -/
def runStates (jid ecc ecp : String) : List Job :=
  (pipelineUpdates.scanl (fun j a => update_job j a 0) (create_job jid ecc ecp 0))

/-- The progress values a `GetJobStatus` poll can observe during one
successful run, in order. -/
def progressTrace (jid ecc ecp : String) : List ℚ :=
  (runStates jid ecc ecp).map fun j => j.progress

/-- The response body of `POST /compare/dask/async/start`. -/
structure StartResponse where
  job_id : String
  status : String
  message : String
  ecc_dataset : String
  ecp_dataset : String
deriving DecidableEq, Repr

/-- `start_comparison` from `backend/api_dask_async.py`: create the job
(unconditionally — the endpoint performs no validation of the dataset
names), schedule the background task, and return the pending response.  The
`try` block only converts an exception from `create_job` into an HTTP 500,
modelled by the `Except` carrier; `create_job` (modulo filesystem faults
outside this model) never raises, so the result is always `ok`. -/
def start_comparison (store : List (String × Job)) (jid ecc ecp : String) (now : Nat) :
    Except String (StartResponse × List (String × Job)) :=
  let j := create_job jid ecc ecp now
  .ok
    ({ job_id := jid
       status := "pending"
       message := "Comparison started in background"
       ecc_dataset := ecc
       ecp_dataset := ecp },
     (jid, j) :: store)

/-- `JobManager.get_job`: cache/disk lookup by id. -/
def get_job (store : List (String × Job)) (jid : String) : Option Job :=
  lookupKey store jid

end OpexR

namespace OpexR

/-! ### Helper lemmas about `update_job` -/

lemma applyStatus_eq (now : Nat) (os : Option JobStatus) (j : Job) :
    applyStatus now os j =
      { j with
        status := os.getD j.status
        started_at :=
          if os = some JobStatus.loading_data ∧ j.started_at = none then some now
          else j.started_at
        completed_at :=
          if os = some JobStatus.completed ∨ os = some JobStatus.failed then some now
          else j.completed_at } := by
  cases os with
  | none => simp [applyStatus]
  | some s =>
    cases s <;> rcases h : j.started_at with _ | t <;> simp [applyStatus, h]

lemma applyProgress_eq (op : Option ℚ) (j : Job) :
    applyProgress op j =
      { j with progress := match op with | none => j.progress | some p => clampProgress p } := by
  cases op <;> rfl

lemma applyMessage_eq (om : Option String) (j : Job) :
    applyMessage om j = { j with progress_message := om.getD j.progress_message } := by
  cases om <;> rfl

lemma applyProcessedRows_eq (onr : Option Nat) (j : Job) :
    applyProcessedRows onr j = { j with processed_rows := onr.getD j.processed_rows } := by
  cases onr <;> rfl

lemma applyTotalRows_eq (onr : Option Nat) (j : Job) :
    applyTotalRows onr j = { j with total_rows := onr.getD j.total_rows } := by
  cases onr <;> rfl

lemma applyResultPath_eq (orp : Option String) (j : Job) :
    applyResultPath orp j =
      { j with result_path := match orp with | none => j.result_path | some p => some p } := by
  cases orp <;> rfl

lemma applyError_eq (oe : Option String) (j : Job) :
    applyError oe j =
      { j with
        error := match oe with | none => j.error | some e => some e
        status := match oe with | none => j.status | some _ => JobStatus.failed } := by
  cases oe <;> rfl

lemma applyMetadata_eq (om : Option (List (String × String))) (j : Job) :
    applyMetadata om j =
      { j with
        metadata := match om with | none => j.metadata | some m => metaUpdate j.metadata m } := by
  cases om <;> rfl

lemma update_job_updated_at (j : Job) (a : UpdateArgs) (now : Nat) :
    (update_job j a now).updated_at = now := by
  simp only [update_job, applyMetadata_eq, applyError_eq, applyResultPath_eq, applyTotalRows_eq,
    applyProcessedRows_eq, applyMessage_eq, applyProgress_eq, applyStatus_eq]

lemma update_job_status (j : Job) (a : UpdateArgs) (now : Nat) :
    (update_job j a now).status =
      (match a.error, a.status with
       | some _, _ => JobStatus.failed
       | none, some s => s
       | none, none => j.status) := by
  simp only [update_job, applyMetadata_eq, applyError_eq, applyResultPath_eq, applyTotalRows_eq,
    applyProcessedRows_eq, applyMessage_eq, applyProgress_eq, applyStatus_eq]
  cases a.error <;> cases a.status <;> rfl

lemma update_job_progress (j : Job) (a : UpdateArgs) (now : Nat) :
    (update_job j a now).progress =
      (match a.progress with
       | none => j.progress
       | some p => clampProgress p) := by
  simp only [update_job, applyMetadata_eq, applyError_eq, applyResultPath_eq, applyTotalRows_eq,
    applyProcessedRows_eq, applyMessage_eq, applyProgress_eq, applyStatus_eq]

lemma update_job_message (j : Job) (a : UpdateArgs) (now : Nat) :
    (update_job j a now).progress_message = a.progress_message.getD j.progress_message := by
  simp only [update_job, applyMetadata_eq, applyError_eq, applyResultPath_eq, applyTotalRows_eq,
    applyProcessedRows_eq, applyMessage_eq, applyProgress_eq, applyStatus_eq]

lemma update_job_processed_rows (j : Job) (a : UpdateArgs) (now : Nat) :
    (update_job j a now).processed_rows = a.processed_rows.getD j.processed_rows := by
  simp only [update_job, applyMetadata_eq, applyError_eq, applyResultPath_eq, applyTotalRows_eq,
    applyProcessedRows_eq, applyMessage_eq, applyProgress_eq, applyStatus_eq]

lemma update_job_total_rows (j : Job) (a : UpdateArgs) (now : Nat) :
    (update_job j a now).total_rows = a.total_rows.getD j.total_rows := by
  simp only [update_job, applyMetadata_eq, applyError_eq, applyResultPath_eq, applyTotalRows_eq,
    applyProcessedRows_eq, applyMessage_eq, applyProgress_eq, applyStatus_eq]

lemma update_job_result_path (j : Job) (a : UpdateArgs) (now : Nat) :
    (update_job j a now).result_path =
      (match a.result_path with
       | none => j.result_path
       | some q => some q) := by
  simp only [update_job, applyMetadata_eq, applyError_eq, applyResultPath_eq, applyTotalRows_eq,
    applyProcessedRows_eq, applyMessage_eq, applyProgress_eq, applyStatus_eq]

lemma update_job_error (j : Job) (a : UpdateArgs) (now : Nat) :
    (update_job j a now).error =
      (match a.error with
       | none => j.error
       | some e => some e) := by
  simp only [update_job, applyMetadata_eq, applyError_eq, applyResultPath_eq, applyTotalRows_eq,
    applyProcessedRows_eq, applyMessage_eq, applyProgress_eq, applyStatus_eq]

lemma update_job_metadata (j : Job) (a : UpdateArgs) (now : Nat) :
    (update_job j a now).metadata =
      (match a.metadata with
       | none => j.metadata
       | some m => metaUpdate j.metadata m) := by
  simp only [update_job, applyMetadata_eq, applyError_eq, applyResultPath_eq, applyTotalRows_eq,
    applyProcessedRows_eq, applyMessage_eq, applyProgress_eq, applyStatus_eq]

lemma update_job_started_at (j : Job) (a : UpdateArgs) (now : Nat) :
    (update_job j a now).started_at =
      (if a.status = some JobStatus.loading_data ∧ j.started_at = none then some now
       else j.started_at) := by
  simp only [update_job, applyMetadata_eq, applyError_eq, applyResultPath_eq, applyTotalRows_eq,
    applyProcessedRows_eq, applyMessage_eq, applyProgress_eq, applyStatus_eq]

lemma update_job_completed_at (j : Job) (a : UpdateArgs) (now : Nat) :
    (update_job j a now).completed_at =
      (if a.status = some JobStatus.completed ∨ a.status = some JobStatus.failed then some now
       else j.completed_at) := by
  simp only [update_job, applyMetadata_eq, applyError_eq, applyResultPath_eq, applyTotalRows_eq,
    applyProcessedRows_eq, applyMessage_eq, applyProgress_eq, applyStatus_eq]

lemma update_job_const_fields (j : Job) (a : UpdateArgs) (now : Nat) :
    (update_job j a now).job_id = j.job_id
    ∧ (update_job j a now).job_type = j.job_type
    ∧ (update_job j a now).ecc_dataset = j.ecc_dataset
    ∧ (update_job j a now).ecp_dataset = j.ecp_dataset
    ∧ (update_job j a now).created_at = j.created_at := by
  refine ⟨?_, ?_, ?_, ?_, ?_⟩ <;>
    simp only [update_job, applyMetadata_eq, applyError_eq, applyResultPath_eq, applyTotalRows_eq,
      applyProcessedRows_eq, applyMessage_eq, applyProgress_eq, applyStatus_eq]

end OpexR

namespace OpexR

/-! ### Claims C1-C5, C10 -/

/-- C1: with source {id=1, code="A", amount="1,000.00"}, target
{id=9, code="A", amount="500.00"} and identifier mapping {1→9}, the
aggregation pipeline produces exactly one row, keyed (9, "A"), with source
amount 1000.0, target amount 500.0, difference -500.0 and status Matched. -/
theorem c1_scenario_single_matched_row :
    compare_datasets_rows [("1", "9")] []
        [{ persNo := "1", wt := "A", amount := "1,000.00" }]
        [{ persNo := "9", wt := "A", amount := "500.00" }]
      = [{ ecp_id := "9", wage_type := "A", wage_category := "Uncategorized",
           ecc_amount := 1000, ecp_amount := 500, difference := -500,
           status := "Matched" }] := by
  decide

/-- C2 counterexample: the joined group built from source record
{id=1, code="A", amount="1.00"} and target record
{id=9, code="A", amount="(1.00)"} under mapping {1→9} has summed amounts
(1, -1) and is classified "ECC Only" (source-only), yet the claimed rule
("SourceOnly iff source_amount > 0 and target_amount == 0") is false at
that group since the target sum is -1, not 0. -/
theorem c2_counterexample :
    ((compare_datasets_rows [("1", "9")] []
        [{ persNo := "1", wt := "A", amount := "1.00" }]
        [{ persNo := "9", wt := "A", amount := "(1.00)" }]).map
      fun r => (r.ecc_amount, r.ecp_amount, r.status)) = [(1, -1, "ECC Only")]
    ∧ ¬ (determine_status 1 (-1) = "ECC Only" ↔ ((1 : ℚ) > 0 ∧ (-1 : ℚ) = 0)) := by
  decide

/-- C2 amended: for every joined aggregate group, the status is Matched iff
both sums are positive; "ECC Only" (source-only) iff the source sum is
positive and the target sum is NOT positive (zero or negative, not only
exactly zero); and "ECP Only" (target-only) in every other case, i.e. iff
the source sum is not positive — including the case where both sums are
exactly 0. -/
theorem c2_status_classification (s t : ℚ) :
    (determine_status s t = "Matched" ↔ s > 0 ∧ t > 0)
    ∧ (determine_status s t = "ECC Only" ↔ s > 0 ∧ ¬ t > 0)
    ∧ (determine_status s t = "ECP Only" ↔ ¬ s > 0) := by
  have e12 : ("Matched" : String) ≠ "ECC Only" := by decide
  have e13 : ("Matched" : String) ≠ "ECP Only" := by decide
  have e23 : ("ECC Only" : String) ≠ "ECP Only" := by decide
  unfold determine_status
  split_ifs with h1 h2
  · simp [e12, e13, h1.1, h1.2]
  · have ht : ¬ t > 0 := fun ht => h1 ⟨h2, ht⟩
    simp [Ne.symm e12, e23, h2, ht]
  · simp [Ne.symm e13, Ne.symm e23, h2]

/-- C3: a source record whose (stripped) identifier has no entry in the
identifier mapping contributes nothing to the aggregate output: removing it
from the source dataset leaves the output unchanged. -/
theorem c3_unmapped_record_excluded (emp_map wt_map : List (String × String))
    (ecc1 ecc2 ecp : List SrcRecord) (r : SrcRecord)
    (h : lookupKey emp_map (pyStripStr r.persNo) = none) :
    compare_datasets_rows emp_map wt_map (ecc1 ++ r :: ecc2) ecp
      = compare_datasets_rows emp_map wt_map (ecc1 ++ ecc2) ecp := by
  have hk : keyedSrc emp_map (ecc1 ++ r :: ecc2) = keyedSrc emp_map (ecc1 ++ ecc2) := by
    unfold keyedSrc
    rw [List.filterMap_append, List.filterMap_append, List.filterMap_cons]
    simp [h]
  unfold compare_datasets_rows
  rw [hk]

/-- C3 witness: a concrete unmapped record (id "2" absent from the mapping
{1→9}) is dropped from the aggregation. -/
theorem c3_witness :
    lookupKey [("1", "9")] (pyStripStr "2") = none
    ∧ compare_datasets_rows [("1", "9")] []
        ([{ persNo := "1", wt := "A", amount := "5" }]
          ++ { persNo := "2", wt := "B", amount := "7" } :: [])
        [{ persNo := "9", wt := "A", amount := "3" }]
      = compare_datasets_rows [("1", "9")] []
          ([{ persNo := "1", wt := "A", amount := "5" }] ++ [])
          [{ persNo := "9", wt := "A", amount := "3" }] :=
  ⟨by decide,
   c3_unmapped_record_excluded [("1", "9")] []
     [{ persNo := "1", wt := "A", amount := "5" }] []
     [{ persNo := "9", wt := "A", amount := "3" }]
     { persNo := "2", wt := "B", amount := "7" } (by decide)⟩

/-- C4 counterexample: the amount normalizer does NOT negate a trailing
minus sign — after comma removal, "2200.00-" fails float parsing and falls
back to 0.0, so "2,200.00-" normalizes to 0, not -2200. -/
theorem c4_counterexample :
    extract_amount "2,200.00-" = 0 ∧ (0 : ℚ) ≠ -2200 := by
  decide

lemma filterMap_of_filter_comma (g : Char → Option Char) (hg : g ',' = none)
    (l : List Char) :
    (l.filter fun c => c != ',').filterMap g = l.filterMap g := by
  induction l with
  | nil => rfl
  | cons c l ih =>
    by_cases hc : c = ','
    · subst hc
      simp [List.filter_cons, List.filterMap_cons, hg, ih]
    · cases hgc : g c <;> simp [List.filter_cons, hc, List.filterMap_cons, hgc, ih]

lemma clean_amount_comma (s : String) :
    clean_amount (String.mk (s.toList.filter fun c => c != ',')) = clean_amount s := by
  unfold clean_amount
  exact congrArg String.mk (filterMap_of_filter_comma _ rfl s.toList)

/-- C4 amended: thousands separators are stripped (removing every comma
from the input never changes the normalized value), parenthesized values
are negated, and non-numeric or empty input yields 0.0 without error — but
a trailing minus sign is NOT recognized as negation: such input fails
numeric parsing and yields 0.0, so "2,200.00-" normalizes to 0.0, not
-2200.0. -/
theorem c4_amount_normalizer :
    (∀ s : String,
      extract_amount (String.mk (s.toList.filter fun c => c != ',')) = extract_amount s)
    ∧ extract_amount "2,200.00-" = 0
    ∧ extract_amount "1,000.00" = 1000
    ∧ extract_amount "2,200.00" = 2200
    ∧ extract_amount "(1,234.56)" = -(123456 / 100 : ℚ)
    ∧ extract_amount "" = 0
    ∧ extract_amount "abc" = 0 := by
  refine ⟨?_, by decide, by decide, by decide, by decide, by decide, by decide⟩
  intro s
  unfold extract_amount
  rw [clean_amount_comma]

/-- The job state reached by completing a fresh job at time 10 with full
progress; used to exhibit the absence of a terminal-state guard. -/
def c5_state : Job :=
  update_job (create_job "j" "e" "p" 0)
    { status := some JobStatus.completed, progress := some 100 } 10

/-- C5 counterexample: after the job reaches COMPLETED at time 10
(completion timestamp 10, progress 100), a second update naming COMPLETED
at time 20 is not a no-op: it overwrites the completion timestamp to 20 and
mutates the progress field to 50. -/
theorem c5_counterexample :
    c5_state.status = JobStatus.completed
    ∧ c5_state.completed_at = some 10
    ∧ c5_state.progress = 100
    ∧ (update_job c5_state
        { status := some JobStatus.completed, progress := some 50 } 20).completed_at = some 20
    ∧ (update_job c5_state
        { status := some JobStatus.completed, progress := some 50 } 20).progress = 50 := by
  decide

/-- C5 amended: `update_job` enforces no terminal-state immutability — it
never inspects the job's current status.  Every update whose status
argument names COMPLETED or FAILED (re)records the completion timestamp
with the call's time, and all other supplied fields (progress shown here)
are applied exactly as for a non-terminal job. -/
theorem c5_no_terminal_guard (j : Job) (a : UpdateArgs) (now : Nat)
    (h : a.status = some JobStatus.completed ∨ a.status = some JobStatus.failed) :
    (update_job j a now).completed_at = some now
    ∧ (update_job j a now).progress =
        (match a.progress with
         | none => j.progress
         | some p => clampProgress p) := by
  refine ⟨?_, update_job_progress j a now⟩
  rw [update_job_completed_at, if_pos h]

/-- C5 witness: instantiating the amended theorem at a job already in
COMPLETED state. -/
theorem c5_witness :
    (update_job c5_state { status := some JobStatus.failed, progress := some 7 } 30).completed_at
        = some 30
    ∧ (update_job c5_state
        { status := some JobStatus.failed, progress := some 7 } 30).progress = clampProgress 7 :=
  c5_no_terminal_guard c5_state { status := some JobStatus.failed, progress := some 7 } 30
    (Or.inr rfl)

/-- C10: the frame condition of `update_job`: every field not named by a
supplied argument keeps its previous value, except that `updated_at` is
always refreshed, `started_at` is set when the status argument is
LOADING_DATA and no start time was recorded, `completed_at` is set when the
status argument is COMPLETED or FAILED, and a supplied error message forces
the final status to FAILED, overriding any status argument of the same
call; supplied fields are applied as given (progress clamped). -/
theorem c10_update_job_frame (j : Job) (a : UpdateArgs) (now : Nat) :
    (update_job j a now).updated_at = now
    ∧ (update_job j a now).status =
        (match a.error, a.status with
         | some _, _ => JobStatus.failed
         | none, some s => s
         | none, none => j.status)
    ∧ (update_job j a now).progress =
        (match a.progress with
         | none => j.progress
         | some p => clampProgress p)
    ∧ (update_job j a now).progress_message = a.progress_message.getD j.progress_message
    ∧ (update_job j a now).processed_rows = a.processed_rows.getD j.processed_rows
    ∧ (update_job j a now).total_rows = a.total_rows.getD j.total_rows
    ∧ (update_job j a now).result_path =
        (match a.result_path with
         | none => j.result_path
         | some q => some q)
    ∧ (update_job j a now).error =
        (match a.error with
         | none => j.error
         | some e => some e)
    ∧ (update_job j a now).metadata =
        (match a.metadata with
         | none => j.metadata
         | some m => metaUpdate j.metadata m)
    ∧ (update_job j a now).started_at =
        (if a.status = some JobStatus.loading_data ∧ j.started_at = none then some now
         else j.started_at)
    ∧ (update_job j a now).completed_at =
        (if a.status = some JobStatus.completed ∨ a.status = some JobStatus.failed then some now
         else j.completed_at)
    ∧ (update_job j a now).job_id = j.job_id
    ∧ (update_job j a now).job_type = j.job_type
    ∧ (update_job j a now).ecc_dataset = j.ecc_dataset
    ∧ (update_job j a now).ecp_dataset = j.ecp_dataset
    ∧ (update_job j a now).created_at = j.created_at :=
  ⟨update_job_updated_at j a now, update_job_status j a now, update_job_progress j a now,
   update_job_message j a now, update_job_processed_rows j a now, update_job_total_rows j a now,
   update_job_result_path j a now, update_job_error j a now, update_job_metadata j a now,
   update_job_started_at j a now, update_job_completed_at j a now,
   (update_job_const_fields j a now).1, (update_job_const_fields j a now).2.1,
   (update_job_const_fields j a now).2.2.1, (update_job_const_fields j a now).2.2.2.1,
   (update_job_const_fields j a now).2.2.2.2⟩

end OpexR

namespace OpexR

/-! ### Helper lemmas for pagination -/

lemma pages_take {α : Type} (l : List α) (s k : Nat) :
    (List.range k).flatMap (fun i => (l.drop (i * s)).take s) = l.take (k * s) := by
  induction k with
  | zero => simp
  | succ k ih =>
    rw [List.range_succ, List.flatMap_append, ih]
    simp [Nat.succ_mul, List.take_add]

lemma le_ceilDiv_mul (L s : Nat) (hs : 0 < s) : L ≤ ceilDiv L s * s := by
  unfold ceilDiv
  rcases Nat.eq_zero_or_pos L with hL | hL
  · simp [hL]
  · have e : L + s - 1 = (L - 1) + s := by omega
    rw [e, Nat.add_div_right _ hs, Nat.add_mul, Nat.one_mul]
    have hmod := Nat.div_add_mod' (L - 1) s
    have hlt : (L - 1) % s < s := Nat.mod_lt _ hs
    omega

lemma ceilDiv_mul_lt (L s : Nat) (hs : 0 < s) : ceilDiv L s * s < L + s := by
  unfold ceilDiv
  have h := Nat.div_mul_le_self (L + s - 1) s
  omega

/-- Concatenating the `ceilDiv length s` consecutive chunks of size `s`
recovers the whole list. -/
lemma pages_cover {α : Type} (l : List α) (s : Nat) (hs : 0 < s) :
    (List.range (ceilDiv l.length s)).flatMap (fun i => (l.drop (i * s)).take s) = l := by
  rw [pages_take]
  exact List.take_of_length_le (le_ceilDiv_mul l.length s hs)

/-! ### Claims C6-C9 -/

/-- C6: for a stored job that is not COMPLETED, `query_results` returns the
non-fatal in-progress shape carrying the job's current status, progress and
message, an empty row list and zero total rows/pages; for an unknown job id
it fails with the not-found error. -/
theorem c6_query_in_progress (jobs : List (String × Job))
    (stores : List (String × List ResultRow)) (jid : String) (page pageSize : Nat)
    (spec : List (SortKey × Bool)) (filt : Option String) :
    (∀ j, lookupKey jobs jid = some j → j.status ≠ JobStatus.completed →
      query_results jobs stores jid page pageSize spec filt
        = QueryOutcome.inProgress j.status j.progress j.progress_message [] page pageSize 0 0)
    ∧ (lookupKey jobs jid = none →
      query_results jobs stores jid page pageSize spec filt
        = QueryOutcome.notFound ("Job " ++ jid ++ " not found")) := by
  constructor
  · intro j hj hs
    simp [query_results, hj, hs]
  · intro h
    simp [query_results, h]

/-- The aggregating-state job used to witness C6. -/
def c6_job : Job :=
  { create_job "j1" "e" "p" 0 with
    status := JobStatus.aggregating
    progress := 45
    progress_message := "Aggregating ECC data..." }

/-- C6 witness: querying a job in AGGREGATING state returns the in-progress
shape with its progress and empty rows; querying an unknown id returns the
not-found error. -/
theorem c6_witness :
    query_results [("j1", c6_job)] [] "j1" 1 100 [] none
      = QueryOutcome.inProgress JobStatus.aggregating 45 "Aggregating ECC data..." [] 1 100 0 0
    ∧ query_results [] [] "nope" 1 100 [] none
      = QueryOutcome.notFound "Job nope not found" := by
  have h1 := c6_query_in_progress [("j1", c6_job)] [] "j1" 1 100 [] none
  have h2 := c6_query_in_progress [] [] "nope" 1 100 [] none
  exact ⟨h1.1 c6_job (by rfl) (by decide), h2.2 (by rfl)⟩

/-- C7: for a completed job with a stored result table, every page request
returns the slice of the (deterministically) sorted filtered rows at offset
`(page-1)*pageSize`, with `total_pages = ceilDiv total_rows pageSize`,
`has_next` iff `page < total_pages` and `has_prev` iff `page > 1`;
concatenating pages `1..total_pages` yields exactly the sorted filtered row
list, which is a permutation of the filtered rows (no duplication, no
omission); and `ceilDiv` is the exact ceiling of the division. -/
theorem c7_pagination_complete (jobs : List (String × Job))
    (stores : List (String × List ResultRow)) (jid p : String) (j : Job)
    (rows : List ResultRow) (pageSize : Nat) (spec : List (SortKey × Bool))
    (filt : Option String) (hsize : 0 < pageSize)
    (hj : lookupKey jobs jid = some j) (hc : j.status = JobStatus.completed)
    (hp : j.result_path = some p) (hr : lookupKey stores p = some rows) :
    (∀ page, query_results jobs stores jid page pageSize spec filt
      = QueryOutcome.completed
          (((sortRows spec (filterRows filt rows)).drop ((page - 1) * pageSize)).take pageSize)
          page pageSize (filterRows filt rows).length
          (ceilDiv (filterRows filt rows).length pageSize)
          (decide (page < ceilDiv (filterRows filt rows).length pageSize))
          (decide (page > 1)))
    ∧ (List.range (ceilDiv (filterRows filt rows).length pageSize)).flatMap
        (fun i => ((sortRows spec (filterRows filt rows)).drop (i * pageSize)).take pageSize)
        = sortRows spec (filterRows filt rows)
    ∧ (sortRows spec (filterRows filt rows)).Perm (filterRows filt rows)
    ∧ (filterRows filt rows).length
        ≤ ceilDiv (filterRows filt rows).length pageSize * pageSize
    ∧ ceilDiv (filterRows filt rows).length pageSize * pageSize
        < (filterRows filt rows).length + pageSize := by
  have hperm : (sortRows spec (filterRows filt rows)).Perm (filterRows filt rows) :=
    List.perm_insertionSort _ _
  refine ⟨?_, ?_, hperm, le_ceilDiv_mul _ _ hsize, ceilDiv_mul_lt _ _ hsize⟩
  · intro page
    simp [query_results, hj, hc, hp, hr]
  · have hlen : (sortRows spec (filterRows filt rows)).length = (filterRows filt rows).length :=
      hperm.length_eq
    rw [← hlen]
    exact pages_cover _ _ hsize

/-- Three distinct stored rows used to witness C7. -/
def c7_rows : List ResultRow :=
  [ { ecp_id := "1", wage_type := "A", wage_category := "X",
      ecc_amount := 1, ecp_amount := 1, difference := 0, status := "Matched" },
    { ecp_id := "2", wage_type := "A", wage_category := "X",
      ecc_amount := 2, ecp_amount := 2, difference := 0, status := "Matched" },
    { ecp_id := "3", wage_type := "B", wage_category := "Y",
      ecc_amount := 3, ecp_amount := 0, difference := -3, status := "ECC Only" } ]

/-- The completed job owning `c7_rows`, used to witness C7. -/
def c7_job : Job :=
  { create_job "j2" "e" "p" 0 with
    status := JobStatus.completed
    result_path := some "res" }

/-- C7 witness: with 3 rows and page size 2 there are 2 pages; page 2 is the
final one-row slice with `has_next = false`, `has_prev = true`, and the two
pages concatenate to the whole sorted row list. -/
theorem c7_witness :
    query_results [("j2", c7_job)] [("res", c7_rows)] "j2" 2 2 [] none
      = QueryOutcome.completed (((sortRows [] (filterRows none c7_rows)).drop 2).take 2)
          2 2 3 2 false true
    ∧ (List.range (ceilDiv (filterRows none c7_rows).length 2)).flatMap
        (fun i => ((sortRows [] (filterRows none c7_rows)).drop (i * 2)).take 2)
        = sortRows [] (filterRows none c7_rows) := by
  have h := c7_pagination_complete [("j2", c7_job)] [("res", c7_rows)] "j2" "res" c7_job
    c7_rows 2 [] none (by decide) (by rfl) (by rfl) (by rfl) (by rfl)
  refine ⟨?_, h.2.1⟩
  rw [h.1 2]
  decide

/-- C8: stored progress values are clamped to [0,100] (a supplied progress
is stored as `min 100 (max 0 p)`, an absent one leaves the field unchanged),
and the successive job states of one pipeline run carry a non-decreasing
progress sequence (0, 5, 10, 15, 25, 35, 50, 65, 75, 85, 100), so
successive `GetJobStatus` polls during a run never observe a decrease. -/
theorem c8_progress_clamped_monotone (j : Job) (a : UpdateArgs) (now : Nat) (p : ℚ)
    (jid ecc ecp : String) :
    (a.progress = some p →
      (update_job j a now).progress = clampProgress p
      ∧ 0 ≤ (update_job j a now).progress
      ∧ (update_job j a now).progress ≤ 100)
    ∧ (a.progress = none → (update_job j a now).progress = j.progress)
    ∧ List.Chain' (· ≤ ·) (progressTrace jid ecc ecp) := by
  refine ⟨?_, ?_, ?_⟩
  · intro hp
    have h := update_job_progress j a now
    rw [hp] at h
    refine ⟨h, ?_, ?_⟩
    · rw [h]
      exact le_min (by norm_num) (le_max_left 0 p)
    · rw [h]
      exact min_le_left _ _
  · intro hp
    have h := update_job_progress j a now
    rw [hp] at h
    exact h
  · have ht : progressTrace jid ecc ecp = [0, 5, 10, 15, 25, 35, 50, 65, 75, 85, 100] := rfl
    rw [ht]
    norm_num [List.chain'_cons, List.chain'_singleton]

/-- C8 witness: an out-of-range progress update (150) is clamped to 100, a
negative one (-5) still lands within [0,100], and the concrete run trace is
non-decreasing. -/
theorem c8_witness :
    (update_job (create_job "j" "a" "b" 0) { progress := some 150 } 1).progress
        = clampProgress 150
    ∧ clampProgress 150 = 100
    ∧ (update_job (create_job "j" "a" "b" 0) { progress := some (-5) } 1).progress ≤ 100
    ∧ List.Chain' (· ≤ ·) (progressTrace "j" "a" "b") := by
  have h1 := c8_progress_clamped_monotone (create_job "j" "a" "b" 0)
    { progress := some 150 } 1 150 "j" "a" "b"
  have h2 := c8_progress_clamped_monotone (create_job "j" "a" "b" 0)
    { progress := some (-5) } 1 (-5) "j" "a" "b"
  exact ⟨(h1.1 rfl).1, by decide, (h2.1 rfl).2.2, h1.2.2⟩

/-- C9 counterexample: with BOTH dataset names empty, `start_comparison`
does not fail — it returns the pending response and a job IS created (and
is retrievable), contradicting "fails with InvalidInput ... no job is
created in that case". -/
theorem c9_counterexample :
    start_comparison [] "job-1" "" "" 0
      = Except.ok
          ({ job_id := "job-1", status := "pending",
             message := "Comparison started in background",
             ecc_dataset := "", ecp_dataset := "" },
           [("job-1", create_job "job-1" "" "" 0)])
    ∧ get_job [("job-1", create_job "job-1" "" "" 0)] "job-1"
        = some (create_job "job-1" "" "" 0)
    ∧ (create_job "job-1" "" "" 0).status = JobStatus.pending := by
  refine ⟨rfl, ?_, rfl⟩
  simp [get_job, lookupKey, List.lookup]

/-- C9 amended: `start_comparison` performs no validation of the dataset
names whatsoever: for every input (empty names included) it succeeds,
creates a job in PENDING carrying the given names verbatim, registers it
under the returned id, and reports the pending response. -/
theorem c9_no_input_validation (store : List (String × Job)) (jid ecc ecp : String)
    (now : Nat) :
    start_comparison store jid ecc ecp now
      = Except.ok
          ({ job_id := jid, status := "pending",
             message := "Comparison started in background",
             ecc_dataset := ecc, ecp_dataset := ecp },
           (jid, create_job jid ecc ecp now) :: store)
    ∧ (create_job jid ecc ecp now).status = JobStatus.pending
    ∧ (create_job jid ecc ecp now).ecc_dataset = ecc
    ∧ (create_job jid ecc ecp now).ecp_dataset = ecp
    ∧ get_job ((jid, create_job jid ecc ecp now) :: store) jid
        = some (create_job jid ecc ecp now) := by
  refine ⟨rfl, rfl, rfl, rfl, ?_⟩
  simp [get_job, lookupKey, List.lookup]

end OpexR
